import Mathlib

/-!
Verification development for the JobBOSS inventory-update scripts
(update_inventory.py, xml_generator.py, jobboss_mock.py).

The Python sources are shallowly embedded here:
* pure string manipulation becomes functions on `String` / `List Char`;
* the `re.search` calls become explicit left-to-right scanners with the
  same first-match semantics as the concrete patterns used by the code;
* the COM channel (`win32com.client.Dispatch`) becomes an explicit
  `Channel` record threaded through `run_updates`, together with an
  event trace recording every external call;
* Python ints are `Int`; `datetime.now()` is a monotone counter.
-/

namespace JB

/-! ## Character / string utilities -/

/-- The ASCII whitespace set of Python's str.strip() and of the regex
class backslash-s: space, tab, LF, CR, VT, FF. -/
def isPySpace (c : Char) : Bool :=
  c = ' ' || c = '\t' || c = '\n' || c = '\r' || c = '\x0b' || c = '\x0c'

/-- Python str.strip(): drop leading and trailing whitespace. -/
def pyStrip (s : String) : String :=
  ⟨((s.data.dropWhile isPySpace).reverse.dropWhile isPySpace).reverse⟩

/-- Python line.startswith('#'). -/
def startsHash (s : String) : Bool :=
  match s.data with
  | '#' :: _ => true
  | _ => false

/-! ## Input processing (load_material_ids, count_materials) -/

/-- load_material_ids from update_inventory.py (identical in
xml_generator.py): strip each line, keep the nonempty lines that do not
begin with '#'.  File I/O is modelled by taking the file's lines. -/
def load_material_ids (lines : List String) : List String :=
  (lines.map pyStrip).filter (fun l => !(l == "") && !(startsHash l))

/-- count_materials from update_inventory.py (identical in
xml_generator.py): Counter(material_ids), then negate each count.
The Python dict is modelled as an association list keyed by the distinct
material ids; its key order is immaterial because every consumer in the
source sorts the items before use. -/
def count_materials (material_ids : List String) : List (String × Int) :=
  material_ids.dedup.map (fun mat_id => (mat_id, -(material_ids.count mat_id : Int)))

/-! ## Regex scanners

Each re.search call of the source is embedded as a scanner that tries a
match attempt at every position from left to right, exactly as re.search
does; all patterns used by the source are of the shape
open-tag, capture-group, close-tag, for which this is the precise
first-match semantics. -/

/-- Try `attempt` on every suffix, leftmost first (re.search semantics). -/
def scanFor (attempt : List Char → Option α) : List Char → Option α
  | [] => none
  | c :: rest =>
    match attempt (c :: rest) with
    | some v => some v
    | none => scanFor attempt rest

/-- Match attempt at the current position for a pattern
open-tag ([^<]+) close-tag: a nonempty run of non-'<' characters
bracketed by the two literal tags. -/
def attemptTag (openT closeT : List Char) (s : List Char) : Option (List Char) :=
  if openT.isPrefixOf s then
    let after := s.drop openT.length
    let cap := after.takeWhile (fun ch => ch != '<')
    if !cap.isEmpty && closeT.isPrefixOf (after.drop cap.length) then some cap
    else none
  else none

/-- re.search for open-tag ([^<]+) close-tag. -/
def searchTag (openT closeT : String) (s : List Char) : Option (List Char) :=
  scanFor (attemptTag openT.data closeT.data) s

/-- Match attempt for a literal pattern. -/
def attemptLit (pat : List Char) (s : List Char) : Option Unit :=
  if pat.isPrefixOf s then some () else none

/-- Python's substring containment test (pat in s). -/
def containsSub (pat : String) (s : List Char) : Bool :=
  (scanFor (attemptLit pat.data) s).isSome

/-- Match attempt for the StatusCode fallback pattern of parse_error:
StatusCode open-tag, then one character other than '0', then a possibly
empty run of non-'<' characters, then the close tag. -/
def attemptStatusCodeNonZero (s : List Char) : Option (List Char) :=
  if "<StatusCode>".data.isPrefixOf s then
    match s.drop "<StatusCode>".data.length with
    | [] => none
    | a :: after2 =>
      if a != '0' then
        let cap2 := after2.takeWhile (fun ch => ch != '<')
        if "</StatusCode>".data.isPrefixOf (after2.drop cap2.length) then
          some (a :: cap2)
        else none
      else none
  else none

def searchStatusCodeNonZero (s : List Char) : Option (List Char) :=
  scanFor attemptStatusCodeNonZero s

/-- Match attempt for the mock's MaterialMod id pattern:
MaterialMod open-tag, optional whitespace, ID open-tag, capture, ID
close tag (re.DOTALL only affects '.', which the pattern does not use). -/
def attemptModId (s : List Char) : Option (List Char) :=
  if "<MaterialMod>".data.isPrefixOf s then
    let after := s.drop "<MaterialMod>".data.length
    let after2 := after.dropWhile isPySpace
    if "<ID>".data.isPrefixOf after2 then
      let after3 := after2.drop "<ID>".data.length
      let cap := after3.takeWhile (fun ch => ch != '<')
      if !cap.isEmpty && "</ID>".data.isPrefixOf (after3.drop cap.length) then some cap
      else none
    else none
  else none

def searchModId (s : List Char) : Option (List Char) :=
  scanFor attemptModId s

/-! ## Decimal numerals

Python renders the signed quantity with str()/f-strings and the mock
reads it back with float(); both sides are embedded over Int with an
explicit decimal renderer and parser.  The renderer is fuel-based so
that it stays kernel-reducible. -/

def digitChar (n : Nat) : Char := Char.ofNat (48 + n)

def natReprCore : Nat → Nat → List Char
  | 0, _ => []
  | fuel + 1, n =>
    if n < 10 then [digitChar n]
    else natReprCore fuel (n / 10) ++ [digitChar (n % 10)]

/-- Decimal digits of n, most significant first. -/
def natRepr (n : Nat) : List Char := natReprCore (n + 1) n

/-- Python str() on an int: decimal digits, '-' sign when negative. -/
def intRepr (q : Int) : String :=
  if q < 0 then String.mk ('-' :: natRepr q.natAbs) else String.mk (natRepr q.natAbs)

def digitVal (c : Char) : Nat := c.toNat - 48

def isDigitChar (c : Char) : Bool := '0' ≤ c && c ≤ '9'

def parseNatDigits (l : List Char) : Option Nat :=
  if !l.isEmpty && l.all isDigitChar then
    some (l.foldl (fun a c => 10 * a + digitVal c) 0)
  else none

/-- The mock's float(...) on the integer numerals this system renders;
a string that is not a signed decimal numeral is modelled as the raised
ValueError (none). -/
def parseIntLit (l : List Char) : Option Int :=
  if l.head? = some '-' then (parseNatDigits l.tail).map (fun n => -(n : Int))
  else (parseNatDigits l).map (fun n => (n : Int))

/-! ## XML generation (update_inventory.py) -/

/-- create_query_xml from update_inventory.py (the Session is an element
named SessionID in this workflow variant). -/
def create_query_xml (session_id material_id : String) : String :=
  "<?xml version=\"1.0\" encoding=\"UTF-8\"?>\n<JBXML>\n    <JBXMLRequest>\n        <SessionID>"
    ++ session_id ++
  "</SessionID>\n        <MaterialQueryRq>\n            <MaterialQueryFilter>\n                <ID>"
    ++ material_id ++
  "</ID>\n                <IncludeMaterialLocations>false</IncludeMaterialLocations>\n                <IncludeCustomerParts>false</IncludeCustomerParts>\n                <IncludePriceBreaks>false</IncludePriceBreaks>\n            </MaterialQueryFilter>\n        </MaterialQueryRq>\n    </JBXMLRequest>\n</JBXML>"

/-- create_update_xml from update_inventory.py. -/
def create_update_xml (session_id material_id last_updated : String)
    (quantity : Int) (reason_id : String) : String :=
  "<?xml version=\"1.0\" encoding=\"UTF-8\"?>\n<JBXML>\n    <JBXMLRequest>\n        <SessionID>"
    ++ session_id ++
  "</SessionID>\n        <MaterialModRq>\n            <MaterialMod>\n                <ID>"
    ++ material_id ++
  "</ID>\n                <LastUpdated>"
    ++ last_updated ++
  "</LastUpdated>\n            </MaterialMod>\n            <AdjustOnHandQty>\n                <ReasonRef ID=\""
    ++ reason_id ++
  "\"/>\n                <Quantity>"
    ++ intRepr quantity ++
  "</Quantity>\n            </AdjustOnHandQty>\n        </MaterialModRq>\n    </JBXMLRequest>\n</JBXML>"

/-! ## XML generation (xml_generator.py, the two-phase variant)

Note the session is rendered as an attribute named Session on the
JBXMLRequest element in this variant, not as a SessionID element. -/

/-- create_material_query_xml from xml_generator.py. -/
def create_material_query_xml (session_id_placeholder material_id : String) : String :=
  "<?xml version=\"1.0\" encoding=\"UTF-8\"?>\n<JBXML>\n    <JBXMLRequest Session=\""
    ++ session_id_placeholder ++
  "\">\n        <MaterialQueryRq>\n            <MaterialQueryFilter>\n                <ID>"
    ++ material_id ++
  "</ID>\n                <IncludeMaterialLocations>false</IncludeMaterialLocations>\n                <IncludeCustomerParts>false</IncludeCustomerParts>\n                <IncludePriceBreaks>false</IncludePriceBreaks>\n            </MaterialQueryFilter>\n        </MaterialQueryRq>\n    </JBXMLRequest>\n</JBXML>"

/-- create_material_mod_xml from xml_generator.py. -/
def create_material_mod_xml (session_id_placeholder material_id last_updated_placeholder : String)
    (quantity : Int) (reason_id : String) : String :=
  "<?xml version=\"1.0\" encoding=\"UTF-8\"?>\n<JBXML>\n    <JBXMLRequest Session=\""
    ++ session_id_placeholder ++
  "\">\n        <MaterialModRq>\n            <MaterialMod>\n                <ID>"
    ++ material_id ++
  "</ID>\n                <LastUpdated>"
    ++ last_updated_placeholder ++
  "</LastUpdated>\n            </MaterialMod>\n            <AdjustOnHandQty>\n                <ReasonRef ID=\""
    ++ reason_id ++
  "\"/>\n                <Quantity>"
    ++ intRepr quantity ++
  "</Quantity>\n            </AdjustOnHandQty>\n        </MaterialModRq>\n    </JBXMLRequest>\n</JBXML>"

/-- The session placeholder written by generate_update_package. -/
def sessionPlaceholder : String := "\x7b\x7bSESSION_ID\x7d\x7d"

/-- The concurrency-token placeholder written by generate_update_package. -/
def lastUpdatedPlaceholder : String := "\x7b\x7bLAST_UPDATED\x7d\x7d"

/-! ## Response parsing (update_inventory.py) -/

/-- parse_last_updated from update_inventory.py. -/
def parse_last_updated (response : String) : Option String :=
  (searchTag "<LastUpdated>" "</LastUpdated>" response.data).map String.mk

/-- parse_error from update_inventory.py: success sentinel first, then
the StatusMessage and ErrorMessage patterns in order, then the raw
non-zero StatusCode fallback. -/
def parse_error (response : String) : Option String :=
  if containsSub "<StatusCode>0</StatusCode>" response.data then none
  else
    match searchTag "<StatusMessage>" "</StatusMessage>" response.data with
    | some m => some (String.mk m)
    | none =>
      match searchTag "<ErrorMessage>" "</ErrorMessage>" response.data with
      | some m => some (String.mk m)
      | none =>
        match searchStatusCodeNonZero response.data with
        | some code => some ("Status code: " ++ String.mk code)
        | none => none

/-! ## The mock external store (jobboss_mock.py)

MockJobBOSS is embedded with explicit state.  datetime.now() is modelled
as a monotone counter rendered into a fresh string; quantities are kept
as Int (the mock's float coercion only matters for rendering OnHand,
which no caller parses).  The request_log is not part of the state here:
the executor-side event trace records every ProcessRequest instead. -/

structure MaterialRec where
  id : String
  description : String
  on_hand : Int
  last_updated : String
deriving DecidableEq

structure MockState where
  session_active : Bool
  session_id : Option String
  materials : List (String × MaterialRec)
  clock : Nat
deriving DecidableEq

/-- A fresh timestamp string from the monotone clock. -/
def mockStamp (clock : Nat) : String := String.mk ('T' :: natRepr clock)

def lookupMat (materials : List (String × MaterialRec)) (key : String) : Option MaterialRec :=
  materials.lookup key

def setMat (materials : List (String × MaterialRec)) (key : String) (r : MaterialRec) :
    List (String × MaterialRec) :=
  materials.map (fun p => if p.1 == key then (p.1, r) else p)

/-- MockJobBOSS._error_response. -/
def mkErrorResponse (message : String) : String :=
  "<?xml version=\"1.0\" encoding=\"UTF-8\"?>\n<JBXML>\n    <JBXMLRespond>\n        <StatusCode>1</StatusCode>\n        <StatusMessage>"
    ++ message ++
  "</StatusMessage>\n    </JBXMLRespond>\n</JBXML>"

/-- The success body of MockJobBOSS._handle_material_query. -/
def queryOkResponse (mat : MaterialRec) : String :=
  "<?xml version=\"1.0\" encoding=\"UTF-8\"?>\n<JBXML>\n    <JBXMLRespond>\n        <MaterialQueryRs>\n            <StatusCode>0</StatusCode>\n            <StatusMessage>Success</StatusMessage>\n            <Material>\n                <ID>"
    ++ mat.id ++
  "</ID>\n                <Description>"
    ++ mat.description ++
  "</Description>\n                <OnHand>"
    ++ intRepr mat.on_hand ++
  "</OnHand>\n                <LastUpdated>"
    ++ mat.last_updated ++
  "</LastUpdated>\n            </Material>\n        </MaterialQueryRs>\n    </JBXMLRespond>\n</JBXML>"

/-- The success body of MockJobBOSS._handle_material_mod. -/
def modOkResponse (material_id : String) (mat : MaterialRec) : String :=
  "<?xml version=\"1.0\" encoding=\"UTF-8\"?>\n<JBXML>\n    <JBXMLRespond>\n        <MaterialModRs>\n            <StatusCode>0</StatusCode>\n            <StatusMessage>Success</StatusMessage>\n            <MaterialRet>\n                <ID>"
    ++ material_id ++
  "</ID>\n                <OnHand>"
    ++ intRepr mat.on_hand ++
  "</OnHand>\n                <LastUpdated>"
    ++ mat.last_updated ++
  "</LastUpdated>\n            </MaterialRet>\n        </MaterialModRs>\n    </JBXMLRespond>\n</JBXML>"

/-- MockJobBOSS._handle_material_query. -/
def handle_material_query (st : MockState) (xml_request : String) : String :=
  match searchTag "<ID>" "</ID>" xml_request.data with
  | none => mkErrorResponse "No material ID in query"
  | some midChars =>
    let material_id := String.mk midChars
    match lookupMat st.materials material_id with
    | some mat => queryOkResponse mat
    | none => mkErrorResponse ("Material not found: " ++ material_id)

/-- MockJobBOSS._handle_material_mod.  The Except.error case models a
raised Python exception (float() on a non-numeral quantity). -/
def handle_material_mod (st : MockState) (xml_request : String) :
    Except String (MockState × String) :=
  match searchModId xml_request.data with
  | none => Except.ok (st, mkErrorResponse "No material ID in update")
  | some midChars =>
    let material_id := String.mk midChars
    match searchTag "<LastUpdated>" "</LastUpdated>" xml_request.data with
    | none => Except.ok (st, mkErrorResponse "No LastUpdated in update")
    | some luChars =>
      let submitted_last_updated := String.mk luChars
      match searchTag "<Quantity>" "</Quantity>" xml_request.data with
      | none => Except.ok (st, mkErrorResponse "No Quantity in update")
      | some qChars =>
        match parseIntLit qChars with
        | none => Except.error "could not convert string to float"
        | some quantity =>
          match lookupMat st.materials material_id with
          | none => Except.ok (st, mkErrorResponse ("Material not found: " ++ material_id))
          | some mat =>
            if submitted_last_updated ≠ mat.last_updated then
              Except.ok (st, mkErrorResponse
                ("LastUpdated mismatch. Expected: " ++ mat.last_updated ++
                 ", Got: " ++ submitted_last_updated))
            else
              let newMat := { mat with
                on_hand := mat.on_hand + quantity,
                last_updated := mockStamp st.clock }
              let st' := { st with
                materials := setMat st.materials material_id newMat,
                clock := st.clock + 1 }
              Except.ok (st', modOkResponse material_id newMat)

/-- MockJobBOSS.ProcessRequest. -/
def mockProcessRequest (st : MockState) (xml_request : String) :
    Except String (MockState × String) :=
  if containsSub "<MaterialQueryRq>" xml_request.data then
    Except.ok (st, handle_material_query st xml_request)
  else if containsSub "<MaterialModRq>" xml_request.data then
    handle_material_mod st xml_request
  else
    Except.ok (st, mkErrorResponse "Unknown request type")

/-- MockJobBOSS.CreateSession: any nonempty username and password are
accepted and yield a fresh session id; otherwise the empty string is
returned. -/
def mockCreateSession (st : MockState) (username password : String) : MockState × String :=
  if !(username == "") && !(password == "") then
    let sid := "MOCK-SESSION-" ++ mockStamp st.clock
    ({ st with session_active := true, session_id := some sid, clock := st.clock + 1 }, sid)
  else (st, "")

/-- MockJobBOSS.CloseSession. -/
def mockCloseSession (st : MockState) (_session_id : String) : MockState :=
  { st with session_active := false, session_id := none }

/-! ## The executor (run_updates from update_inventory.py) -/

structure SuccessRec where
  id : String
  qty : Int
deriving DecidableEq

structure FailRec where
  id : String
  qty : Int
  error : String
deriving DecidableEq

structure RunResults where
  success : List SuccessRec
  failed : List FailRec
  errors : List String
deriving DecidableEq

def emptyResults : RunResults := ⟨[], [], []⟩

/-- One external call made by the executor. -/
inductive Event where
  | dispatch
  | createSession (user pass : String)
  | processRequest (xml : String)
  | closeSession (session_id : String)
deriving DecidableEq

def Event.isClose : Event → Bool
  | Event.closeSession _ => true
  | _ => false

def Event.isRequest : Event → Bool
  | Event.processRequest _ => true
  | _ => false

/-- The external channel: the Dispatch / CreateSession / ProcessRequest /
CloseSession surface of the COM object, with explicit state and with
Except.error modelling a raised exception. -/
structure Channel (σ : Type) where
  dispatch : σ → Except String σ
  createSession : σ → String → String → σ × Except String String
  processRequest : σ → String → σ × Except String String
  closeSession : σ → String → σ

structure RunOut (σ : Type) where
  results : RunResults
  events : List Event
  state : σ
deriving DecidableEq

/-- Python string comparison (code-point lexicographic), used by sorted(). -/
def charListLt : List Char → List Char → Bool
  | [], [] => false
  | [], _ :: _ => true
  | _ :: _, [] => false
  | a :: as, b :: bs => if a < b then true else if b < a then false else charListLt as bs

def insertSorted (x : String × Int) : List (String × Int) → List (String × Int)
  | [] => [x]
  | y :: ys => if charListLt x.1.data y.1.data then x :: y :: ys else y :: insertSorted x ys

/-- Python sorted(quantity_changes.items()): ascending by material id
(the keys are distinct, so the tuple order is the key order). -/
def sortItems (l : List (String × Int)) : List (String × Int) :=
  l.foldr insertSorted []

/-- The body of the per-material loop of run_updates: query, parse,
conditional update, and exactly one outcome appended to success or
failed.  (A captured LastUpdated is nonempty by construction of the
regex, so Python's falsy test on it coincides with the none test.) -/
def process_item (ch : Channel σ) (session_id reason_id : String)
    (acc : σ × RunResults × List Event) (item : String × Int) :
    σ × RunResults × List Event :=
  let s := acc.1
  let res := acc.2.1
  let evs := acc.2.2
  let material_id := item.1
  let quantity := item.2
  let query_xml := create_query_xml session_id material_id
  let evs := evs ++ [Event.processRequest query_xml]
  match ch.processRequest s query_xml with
  | (s, Except.error e) =>
      (s, { res with failed := res.failed ++ [⟨material_id, quantity, e⟩] }, evs)
  | (s, Except.ok response) =>
    match parse_error response with
    | some err =>
        (s, { res with failed := res.failed ++ [⟨material_id, quantity, err⟩] }, evs)
    | none =>
      match parse_last_updated response with
      | none =>
          (s, { res with failed := res.failed ++ [⟨material_id, quantity, "Not found"⟩] }, evs)
      | some last_updated =>
        let update_xml := create_update_xml session_id material_id last_updated quantity reason_id
        let evs := evs ++ [Event.processRequest update_xml]
        match ch.processRequest s update_xml with
        | (s, Except.error e) =>
            (s, { res with failed := res.failed ++ [⟨material_id, quantity, e⟩] }, evs)
        | (s, Except.ok response2) =>
          match parse_error response2 with
          | some err =>
              (s, { res with failed := res.failed ++ [⟨material_id, quantity, err⟩] }, evs)
          | none =>
              (s, { res with success := res.success ++ [⟨material_id, quantity⟩] }, evs)

def process_items (ch : Channel σ) (session_id reason_id : String) :
    σ × RunResults × List Event → List (String × Int) → σ × RunResults × List Event
  | acc, [] => acc
  | acc, item :: rest =>
      process_items ch session_id reason_id (process_item ch session_id reason_id acc item) rest

/-- run_updates from update_inventory.py.  Reading the input file is
modelled by taking its lines; console output is dropped; every COM call
goes through the Channel and is recorded in the event trace.  The
finally-block CloseSession (whose exceptions the source swallows) is the
trailing closeSession event. -/
def run_updates (ch : Channel σ) (s0 : σ) (lines : List String)
    (username password reason_id : String) (dry_run : Bool) : RunOut σ :=
  let material_ids := load_material_ids lines
  if material_ids.isEmpty then ⟨emptyResults, [], s0⟩
  else
    let quantity_changes := count_materials material_ids
    if dry_run then ⟨emptyResults, [], s0⟩
    else
      match ch.dispatch s0 with
      | Except.error e =>
          ⟨{ emptyResults with errors := ["Failed to create COM object: " ++ e] },
            [Event.dispatch], s0⟩
      | Except.ok s1 =>
        match ch.createSession s1 username password with
        | (s2, Except.error e) =>
            ⟨{ emptyResults with errors := ["Session failed: " ++ e] },
              [Event.dispatch, Event.createSession username password], s2⟩
        | (s2, Except.ok session_id) =>
          if session_id == "" then
            ⟨{ emptyResults with errors := ["Session failed: "] },
              [Event.dispatch, Event.createSession username password], s2⟩
          else
            let out := process_items ch session_id reason_id
              (s2, emptyResults, [Event.dispatch, Event.createSession username password])
              (sortItems quantity_changes)
            ⟨out.2.1, out.2.2 ++ [Event.closeSession session_id],
              ch.closeSession out.1 session_id⟩

/-- The exit decision of main() in update_inventory.py:
sys.exit(1 if results failed or errors else 0). -/
def exit_code (r : RunResults) : Nat :=
  if !r.failed.isEmpty || !r.errors.isEmpty then 1 else 0

/-- The channel built over the mock store, as installed by
jobboss_mock.install_mock (Dispatch returns the mock instance and never
fails; CreateSession and CloseSession never raise). -/
def mockChannel : Channel MockState where
  dispatch := fun s => Except.ok s
  createSession := fun s u p =>
    let (s', sid) := mockCreateSession s u p
    (s', Except.ok sid)
  processRequest := fun s xml =>
    match mockProcessRequest s xml with
    | Except.ok (s', resp) => (s', Except.ok resp)
    | Except.error e => (s, Except.error e)
  closeSession := fun s sid => mockCloseSession s sid

/-! ## Counting lemmas for the aggregator -/

theorem sum_map_add_split (f g : String → Nat) (L : List String) :
    (L.map (fun k => f k + g k)).sum = (L.map f).sum + (L.map g).sum := by
  induction L with
  | nil => simp
  | cons a L ih => simp only [List.map_cons, List.sum_cons, ih]; omega

theorem sum_map_ite_count (x : String) (L : List String) :
    (L.map (fun k => if k = x then (1 : Nat) else 0)).sum = L.count x := by
  induction L with
  | nil => simp
  | cons y ys ih =>
    by_cases h : y = x
    · subst h
      simp only [List.count_cons, ih]
      simp
      omega
    · simp [List.count_cons, h, ih, Ne.symm h]

/-- Summing each distinct element's multiplicity recovers the length. -/
theorem sum_counts_dedup (l : List String) :
    ((l.dedup).map (fun x => l.count x)).sum = l.length := by
  induction l with
  | nil => simp
  | cons x xs ih =>
    by_cases hx : x ∈ xs
    · rw [List.dedup_cons_of_mem hx, List.length_cons]
      have hcongr : (xs.dedup).map (fun k => (x :: xs).count k)
          = (xs.dedup).map (fun k => xs.count k + if k = x then 1 else 0) := by
        apply List.map_congr_left
        intro k _
        rw [List.count_cons]
        by_cases hkx : k = x
        · subst hkx
          simp
        · simp [hkx, Ne.symm hkx]
      rw [hcongr, sum_map_add_split, ih, sum_map_ite_count, List.count_dedup]
      simp [hx]
    · rw [List.dedup_cons_of_not_mem hx, List.length_cons]
      simp only [List.map_cons, List.sum_cons]
      have hcongr : (xs.dedup).map (fun k => (x :: xs).count k)
          = (xs.dedup).map (fun k => xs.count k) := by
        apply List.map_congr_left
        intro k hk
        have hkx : k ≠ x := by
          intro he
          exact hx (he ▸ List.mem_dedup.mp hk)
        rw [List.count_cons]
        simp [hkx, Ne.symm hkx]
      have hcx : (x :: xs).count x = 1 := by
        rw [List.count_cons]
        simp [List.count_eq_zero_of_not_mem hx]
      rw [hcx, hcongr, ih]
      omega

/-- C1: count_materials maps each identifier occurring in the input to
the negative of its occurrence count (duplicates combine by counting,
order-independently), every entry of the result is of that form, the sum
of the absolute deltas is the input length, and the worked example
[A, A, A, B, B, C] aggregates to A: -3, B: -2, C: -1. -/
theorem claim_C1_aggregation (ids : List String) :
    (∀ mid, mid ∈ ids → (mid, -(ids.count mid : Int)) ∈ count_materials ids) ∧
    (∀ p, p ∈ count_materials ids → p.2 = -(ids.count p.1 : Int)) ∧
    ((count_materials ids).map (fun p => p.2.natAbs)).sum = ids.length ∧
    count_materials ["A", "A", "A", "B", "B", "C"] = [("A", -3), ("B", -2), ("C", -1)] := by
  refine ⟨?_, ?_, ?_, by decide⟩
  · intro mid hmid
    exact List.mem_map.mpr ⟨mid, List.mem_dedup.mpr hmid, rfl⟩
  · intro p hp
    obtain ⟨k, _, hk⟩ := List.mem_map.mp hp
    rw [← hk]
  · unfold count_materials
    rw [List.map_map]
    have hcongr : ((fun p : String × Int => p.2.natAbs) ∘
          fun mat_id => (mat_id, -(ids.count mat_id : Int)))
        = fun mat_id => ids.count mat_id := by
      funext k
      simp
    rw [hcongr, sum_counts_dedup]

/-- Witness for C1 at a concrete input. -/
theorem claim_C1_aggregation_witness :
    ("A", (-2 : Int)) ∈ count_materials ["A", "A"] :=
  (claim_C1_aggregation ["A", "A"]).1 "A" (by decide)

/-! ## C2: one known and one unknown identifier -/

/-- The mock store of test_nonexistent_material in test_workflow.py:
one known identifier. -/
def c2MockState : MockState :=
  ⟨false, none, [("EXISTING-001", ⟨"EXISTING-001", "Exists", 10, "2025-01-01T00:00:00"⟩)], 0⟩

/-- The batch of test_nonexistent_material: one known and one unknown id. -/
def c2Run : RunOut MockState :=
  run_updates mockChannel c2MockState ["EXISTING-001", "NONEXISTENT-999"] "test" "test" "TEST" false

set_option maxRecDepth 400000 in
/-- C2: with one known and one unknown identifier and valid credentials,
the run records exactly one Success (the known id) and exactly one
Failure whose reason reports not-found (the store's message
"Material not found: NONEXISTENT-999" contains "not found"), and the
session close call happens exactly once, as the final external call. -/
theorem claim_C2_one_success_one_not_found_single_close :
    c2Run.results.success = [⟨"EXISTING-001", -1⟩] ∧
    c2Run.results.failed = [⟨"NONEXISTENT-999", -1, "Material not found: NONEXISTENT-999"⟩] ∧
    containsSub "not found" "Material not found: NONEXISTENT-999".data = true ∧
    (c2Run.events.filter Event.isClose).length = 1 ∧
    (c2Run.events.getLast?).map Event.isClose = some true := by decide

/-! ## C9: dry-run makes no external calls -/

/-- C9: for every channel and every input with at least one material id,
a dry run returns the empty outcome set, records no external call, and
leaves the channel state untouched. -/
theorem claim_C9_dry_run_no_calls (σ : Type) (ch : Channel σ) (s0 : σ)
    (lines : List String) (username password reason_id : String)
    (h : load_material_ids lines ≠ []) :
    run_updates ch s0 lines username password reason_id true =
      ⟨emptyResults, [], s0⟩ := by
  unfold run_updates
  simp [h]

/-- Witness for C9 at a concrete channel, state and input. -/
theorem claim_C9_dry_run_no_calls_witness :
    run_updates mockChannel c2MockState ["EXISTING-001"] "test" "test" "TEST" true =
      ⟨emptyResults, [], c2MockState⟩ :=
  claim_C9_dry_run_no_calls MockState mockChannel c2MockState ["EXISTING-001"]
    "test" "test" "TEST" (by decide)

/-! ## C3: concurrency-token conflict -/

/-- Recognizer for an update (MaterialModRq) request for a given id. -/
def Event.isUpdateRequestFor (mid : String) : Event → Bool
  | Event.processRequest xml =>
      containsSub "<MaterialModRq>" xml.data &&
      containsSub ("<ID>" ++ mid ++ "</ID>") xml.data
  | _ => false

/-- The mock store plus a scripted concurrent writer: before external
call number n is served, a scheduled write (n, id, token) replaces that
record's concurrency token, modelling the racing writer of the spec's
conflict scenario. -/
structure RaceState where
  mock : MockState
  calls : Nat
  writes : List (Nat × String × String)
deriving DecidableEq

def applyWrites (s : RaceState) : RaceState :=
  match s.writes.lookup s.calls with
  | some (mid, tok) =>
      { s with mock := { s.mock with materials :=
          (match lookupMat s.mock.materials mid with
           | some mat => setMat s.mock.materials mid { mat with last_updated := tok }
           | none => s.mock.materials) } }
  | none => s

def raceChannel : Channel RaceState where
  dispatch := fun s => Except.ok s
  createSession := fun s u p =>
    let (m', sid) := mockCreateSession s.mock u p
    ({ s with mock := m' }, Except.ok sid)
  processRequest := fun s xml =>
    let s1 := applyWrites s
    match mockProcessRequest s1.mock xml with
    | Except.ok (m', resp) => ({ s1 with mock := m', calls := s1.calls + 1 }, Except.ok resp)
    | Except.error e => ({ s1 with calls := s1.calls + 1 }, Except.error e)
  closeSession := fun s sid => { s with mock := mockCloseSession s.mock sid }

def c3Materials : List (String × MaterialRec) :=
  [("MAT-A", ⟨"MAT-A", "A", 10, "TOKEN-A0"⟩), ("MAT-B", ⟨"MAT-B", "B", 20, "TOKEN-B0"⟩)]

/-- Race scenario: between MAT-A's query (call 0) and its update
(call 1) another writer bumps MAT-A's token. -/
def c3RaceStart : RaceState := ⟨⟨false, none, c3Materials, 0⟩, 0, [(1, ("MAT-A", "TOKEN-A1"))]⟩

/-- The same batch with no concurrent writer. -/
def c3CleanStart : RaceState := ⟨⟨false, none, c3Materials, 0⟩, 0, []⟩

def c3RaceRun : RunOut RaceState :=
  run_updates raceChannel c3RaceStart ["MAT-A", "MAT-B"] "u" "p" "ADJUST" false

def c3CleanRun : RunOut RaceState :=
  run_updates raceChannel c3CleanStart ["MAT-A", "MAT-B"] "u" "p" "ADJUST" false

set_option maxRecDepth 800000 in
/-- C3: when the store rejects MAT-A's conditional update because its
token changed between query and update, MAT-A is recorded as a Failure
whose reason carries both the store's current (expected) token TOKEN-A1
and the submitted token TOKEN-A0; exactly one update request for MAT-A
is ever sent (no silent retry); and the other item MAT-B still succeeds
with exactly the outcome it gets in the conflict-free run. -/
theorem claim_C3_conflict_failure_no_retry_isolated :
    c3RaceRun.results.failed =
      [⟨"MAT-A", -1, "LastUpdated mismatch. Expected: TOKEN-A1, Got: TOKEN-A0"⟩] ∧
    containsSub "TOKEN-A1"
      "LastUpdated mismatch. Expected: TOKEN-A1, Got: TOKEN-A0".data = true ∧
    containsSub "TOKEN-A0"
      "LastUpdated mismatch. Expected: TOKEN-A1, Got: TOKEN-A0".data = true ∧
    (c3RaceRun.events.filter (Event.isUpdateRequestFor "MAT-A")).length = 1 ∧
    c3RaceRun.results.success = [⟨"MAT-B", -1⟩] ∧
    c3CleanRun.results.success = [⟨"MAT-A", -1⟩, ⟨"MAT-B", -1⟩] ∧
    c3CleanRun.results.failed = [] := by decide

/-! ## C4: exit signaling -/

theorem exit_code_eq_one_iff (r : RunResults) :
    exit_code r = 1 ↔ (r.failed ≠ [] ∨ r.errors ≠ []) := by
  unfold exit_code
  rcases r with ⟨s, f, e⟩
  cases f <;> cases e <;> simp

/-- Counterexample to C4: empty input is, per the claim, a fatal
precondition (ValidationError) that must make the run signal failure,
yet run_updates returns the empty result set and main's exit decision
yields 0. -/
theorem claim_C4_counterexample :
    load_material_ids [] = [] ∧
    exit_code (run_updates mockChannel c2MockState [] "test" "test" "TEST" false).results
      = 0 := by decide

/-- C4 (amended): main exits nonzero iff the per-item failure list or the
fatal error list is nonempty; session-establishment failure (an empty
session id) records a fatal error and therefore exits 1; but empty input
merely returns the empty result set, so it exits 0 and is not reflected
in the exit signal. -/
theorem claim_C4_exit_signaling (σ : Type) (ch : Channel σ) (s0 : σ)
    (lines : List String) (username password reason_id : String) (dry_run : Bool) :
    (exit_code (run_updates ch s0 lines username password reason_id dry_run).results = 1 ↔
      ((run_updates ch s0 lines username password reason_id dry_run).results.failed ≠ [] ∨
       (run_updates ch s0 lines username password reason_id dry_run).results.errors ≠ [])) ∧
    (load_material_ids lines = [] →
      run_updates ch s0 lines username password reason_id dry_run =
        ⟨emptyResults, [], s0⟩) ∧
    (∀ s1 s2, load_material_ids lines ≠ [] → dry_run = false →
      ch.dispatch s0 = Except.ok s1 →
      ch.createSession s1 username password = (s2, Except.ok "") →
      exit_code (run_updates ch s0 lines username password reason_id dry_run).results
        = 1) := by
  refine ⟨exit_code_eq_one_iff _, ?_, ?_⟩
  · intro h
    unfold run_updates
    simp [h]
  · intro s1 s2 hne hdry hdisp hsess
    subst hdry
    unfold run_updates
    simp [hne, hdisp, hsess, exit_code, emptyResults]

/-- Witness for C4 at a channel whose session comes back empty. -/
theorem claim_C4_exit_signaling_witness :
    exit_code (run_updates mockChannel c2MockState ["A"] "" "" "TEST" false).results = 1 :=
  (claim_C4_exit_signaling MockState mockChannel c2MockState ["A"] "" "" "TEST" false).2.2
    c2MockState c2MockState (by decide) rfl rfl rfl

/-! ## C5: responses with no status field -/

/-- A channel replaying a fixed list of response documents, to drive the
executor against arbitrary response shapes. -/
def scriptChannel : Channel (List String) where
  dispatch := fun s => Except.ok s
  createSession := fun s _ _ => (s, Except.ok "S1")
  processRequest := fun s _ =>
    match s with
    | [] => (s, Except.error "no scripted response")
    | r :: rest => (rest, Except.ok r)
  closeSession := fun s _ => s

def c5QueryResponse : String :=
  "<JBXML><StatusCode>0</StatusCode><LastUpdated>TOK-1</LastUpdated></JBXML>"

/-- A response carrying no status field of any kind. -/
def c5NoStatusResponse : String := "<JBXML><MaterialModRs></MaterialModRs></JBXML>"

def c5Run : RunOut (List String) :=
  run_updates scriptChannel [c5QueryResponse, c5NoStatusResponse] ["M1"] "u" "p" "R" false

set_option maxRecDepth 400000 in
/-- Counterexample to C5: on a response with no recognizable status field
the parser reports no error at all, and at the update step the executor
consequently records a business Success for the item, not a
transport-level anomaly. -/
theorem claim_C5_counterexample :
    parse_error c5NoStatusResponse = none ∧
    c5Run.results.success = [⟨"M1", -1⟩] ∧
    c5Run.results.failed = [] ∧
    c5Run.results.errors = [] := by decide

/-- C5 (amended): a response in which none of the status patterns match
(no success sentinel, no StatusMessage, no ErrorMessage, no non-zero
StatusCode field) makes parse_error return none, i.e. it is treated as
the absence of failure rather than as a transport anomaly. -/
theorem claim_C5_no_status_means_no_error (response : String)
    (h0 : containsSub "<StatusCode>0</StatusCode>" response.data = false)
    (h1 : searchTag "<StatusMessage>" "</StatusMessage>" response.data = none)
    (h2 : searchTag "<ErrorMessage>" "</ErrorMessage>" response.data = none)
    (h3 : searchStatusCodeNonZero response.data = none) :
    parse_error response = none := by
  simp [parse_error, h0, h1, h2, h3]

/-- Witness for C5's amended statement at a concrete response. -/
theorem claim_C5_no_status_means_no_error_witness :
    parse_error "<JBXML><MaterialQueryRs></MaterialQueryRs></JBXML>" = none :=
  claim_C5_no_status_means_no_error "<JBXML><MaterialQueryRs></MaterialQueryRs></JBXML>"
    (by decide) (by decide) (by decide) (by decide)

/-! ## Substring containment lemmas -/

theorem scanFor_cons (attempt : List Char → Option α) (c : Char) (rest : List Char) :
    scanFor attempt (c :: rest) =
      match attempt (c :: rest) with
      | some v => some v
      | none => scanFor attempt rest := rfl

theorem isPrefixOf_append_extend {p s t : List Char} (h : p.isPrefixOf s = true) :
    p.isPrefixOf (s ++ t) = true := by
  rw [List.isPrefixOf_iff_prefix] at h ⊢
  exact h.trans (List.prefix_append s t)

theorem containsSub_append_right (pat : String) (l r : List Char)
    (h : containsSub pat r = true) : containsSub pat (l ++ r) = true := by
  induction l with
  | nil => simpa
  | cons c l ih =>
    unfold containsSub at ih ⊢
    rw [List.cons_append, scanFor_cons]
    cases ha : attemptLit pat.data (c :: (l ++ r)) with
    | some v => simp
    | none => simpa using ih

theorem containsSub_append_left (pat : String) (l r : List Char)
    (h : containsSub pat l = true) : containsSub pat (l ++ r) = true := by
  induction l with
  | nil => simp [containsSub, scanFor] at h
  | cons c l ih =>
    unfold containsSub at h ⊢
    rw [scanFor_cons] at h
    rw [List.cons_append, scanFor_cons]
    cases ha : attemptLit pat.data (c :: l) with
    | some v =>
      have hb : attemptLit pat.data (c :: (l ++ r)) = some () := by
        unfold attemptLit at ha ⊢
        by_cases hp : pat.data.isPrefixOf (c :: l) = true
        · have : pat.data.isPrefixOf ((c :: l) ++ r) = true := isPrefixOf_append_extend hp
          rw [List.cons_append] at this
          simp [this]
        · simp [hp] at ha
      simp [hb]
    | none =>
      cases hb : attemptLit pat.data (c :: (l ++ r)) with
      | some v => simp
      | none =>
        rw [ha] at h
        simp only [Option.isSome] at h
        exact ih h

/-! ## C6: request document field names -/

set_option maxRecDepth 1000000 in
/-- Counterexample to C6: the two-phase variant's rendered query document
(exactly as written by generate_update_package, with its literal session
placeholder) contains no SessionID field at all; the session travels in
an attribute named Session instead. -/
theorem claim_C6_counterexample :
    containsSub "SessionID" (create_material_query_xml sessionPlaceholder "MAT-001").data
        = false ∧
    containsSub "JBXMLRequest Session=\""
        (create_material_query_xml sessionPlaceholder "MAT-001").data = true := by decide

set_option maxRecDepth 1000000 in
/-- C6 (amended): for all rendered inputs, the single-phase variant's
query and update documents carry SessionID, the query filter's ID, the
modification body's ID and LastUpdated, the ReasonRef ID attribute and
the Quantity field; the two-phase variant's documents carry the same
body fields but transmit the session as a JBXMLRequest attribute named
Session rather than a SessionID field (shown concretely for the
generator's placeholder rendering). -/
theorem claim_C6_request_field_names (session material lu reason : String) (q : Int) :
    containsSub "<SessionID>" (create_query_xml session material).data = true ∧
    containsSub "<MaterialQueryFilter>" (create_query_xml session material).data = true ∧
    containsSub "<ID>" (create_query_xml session material).data = true ∧
    containsSub "<SessionID>" (create_update_xml session material lu q reason).data = true ∧
    containsSub "<ID>" (create_update_xml session material lu q reason).data = true ∧
    containsSub "<LastUpdated>" (create_update_xml session material lu q reason).data = true ∧
    containsSub "<ReasonRef ID=\"" (create_update_xml session material lu q reason).data = true ∧
    containsSub "<Quantity>" (create_update_xml session material lu q reason).data = true ∧
    containsSub "JBXMLRequest Session=\""
      (create_material_query_xml session material).data = true ∧
    containsSub "<ID>" (create_material_query_xml session material).data = true ∧
    containsSub "JBXMLRequest Session=\""
      (create_material_mod_xml session material lu q reason).data = true ∧
    containsSub "<ID>" (create_material_mod_xml session material lu q reason).data = true ∧
    containsSub "<LastUpdated>"
      (create_material_mod_xml session material lu q reason).data = true ∧
    containsSub "<ReasonRef ID=\""
      (create_material_mod_xml session material lu q reason).data = true ∧
    containsSub "<Quantity>"
      (create_material_mod_xml session material lu q reason).data = true ∧
    containsSub "SessionID"
      (create_material_query_xml sessionPlaceholder "MAT-001").data = false := by
  refine ⟨?_, ?_, ?_, ?_, ?_, ?_, ?_, ?_, ?_, ?_, ?_, ?_, ?_, ?_, ?_, by decide⟩
  · unfold create_query_xml
    simp only [String.data_append, List.append_assoc]
    exact containsSub_append_left _ _ _ (by decide)
  · unfold create_query_xml
    simp only [String.data_append, List.append_assoc]
    refine containsSub_append_right _ _ _ (containsSub_append_right _ _ _ ?_)
    exact containsSub_append_left _ _ _ (by decide)
  · unfold create_query_xml
    simp only [String.data_append, List.append_assoc]
    refine containsSub_append_right _ _ _ (containsSub_append_right _ _ _ ?_)
    exact containsSub_append_left _ _ _ (by decide)
  · unfold create_update_xml
    simp only [String.data_append, List.append_assoc]
    exact containsSub_append_left _ _ _ (by decide)
  · unfold create_update_xml
    simp only [String.data_append, List.append_assoc]
    refine containsSub_append_right _ _ _ (containsSub_append_right _ _ _ ?_)
    exact containsSub_append_left _ _ _ (by decide)
  · unfold create_update_xml
    simp only [String.data_append, List.append_assoc]
    refine containsSub_append_right _ _ _ (containsSub_append_right _ _ _
      (containsSub_append_right _ _ _ (containsSub_append_right _ _ _ ?_)))
    exact containsSub_append_left _ _ _ (by decide)
  · unfold create_update_xml
    simp only [String.data_append, List.append_assoc]
    refine containsSub_append_right _ _ _ (containsSub_append_right _ _ _
      (containsSub_append_right _ _ _ (containsSub_append_right _ _ _
        (containsSub_append_right _ _ _ (containsSub_append_right _ _ _ ?_)))))
    exact containsSub_append_left _ _ _ (by decide)
  · unfold create_update_xml
    simp only [String.data_append, List.append_assoc]
    refine containsSub_append_right _ _ _ (containsSub_append_right _ _ _
      (containsSub_append_right _ _ _ (containsSub_append_right _ _ _
        (containsSub_append_right _ _ _ (containsSub_append_right _ _ _
          (containsSub_append_right _ _ _ (containsSub_append_right _ _ _ ?_)))))))
    exact containsSub_append_left _ _ _ (by decide)
  · unfold create_material_query_xml
    simp only [String.data_append, List.append_assoc]
    exact containsSub_append_left _ _ _ (by decide)
  · unfold create_material_query_xml
    simp only [String.data_append, List.append_assoc]
    refine containsSub_append_right _ _ _ (containsSub_append_right _ _ _ ?_)
    exact containsSub_append_left _ _ _ (by decide)
  · unfold create_material_mod_xml
    simp only [String.data_append, List.append_assoc]
    exact containsSub_append_left _ _ _ (by decide)
  · unfold create_material_mod_xml
    simp only [String.data_append, List.append_assoc]
    refine containsSub_append_right _ _ _ (containsSub_append_right _ _ _ ?_)
    exact containsSub_append_left _ _ _ (by decide)
  · unfold create_material_mod_xml
    simp only [String.data_append, List.append_assoc]
    refine containsSub_append_right _ _ _ (containsSub_append_right _ _ _
      (containsSub_append_right _ _ _ (containsSub_append_right _ _ _ ?_)))
    exact containsSub_append_left _ _ _ (by decide)
  · unfold create_material_mod_xml
    simp only [String.data_append, List.append_assoc]
    refine containsSub_append_right _ _ _ (containsSub_append_right _ _ _
      (containsSub_append_right _ _ _ (containsSub_append_right _ _ _
        (containsSub_append_right _ _ _ (containsSub_append_right _ _ _ ?_)))))
    exact containsSub_append_left _ _ _ (by decide)
  · unfold create_material_mod_xml
    simp only [String.data_append, List.append_assoc]
    refine containsSub_append_right _ _ _ (containsSub_append_right _ _ _
      (containsSub_append_right _ _ _ (containsSub_append_right _ _ _
        (containsSub_append_right _ _ _ (containsSub_append_right _ _ _
          (containsSub_append_right _ _ _ (containsSub_append_right _ _ _ ?_)))))))
    exact containsSub_append_left _ _ _ (by decide)

/-! ## C10: exactly one outcome per aggregated identifier -/

theorem process_item_cases (σ : Type) (ch : Channel σ) (sid rid : String)
    (acc : σ × RunResults × List Event) (item : String × Int) :
    (∃ e, ((process_item ch sid rid acc item).2.1).failed
          = acc.2.1.failed ++ [⟨item.1, item.2, e⟩] ∧
        ((process_item ch sid rid acc item).2.1).success = acc.2.1.success) ∨
    (((process_item ch sid rid acc item).2.1).success
          = acc.2.1.success ++ [⟨item.1, item.2⟩] ∧
        ((process_item ch sid rid acc item).2.1).failed = acc.2.1.failed) := by
  simp only [process_item]
  rcases hq : ch.processRequest acc.1 (create_query_xml sid item.1) with ⟨s1, r1⟩
  cases r1 with
  | error e => exact Or.inl ⟨e, rfl, rfl⟩
  | ok response =>
    dsimp only
    cases hpe : parse_error response with
    | some err => exact Or.inl ⟨err, rfl, rfl⟩
    | none =>
      dsimp only
      cases hlu : parse_last_updated response with
      | none => exact Or.inl ⟨"Not found", rfl, rfl⟩
      | some last_updated =>
        dsimp only
        rcases hu : ch.processRequest s1
            (create_update_xml sid item.1 last_updated item.2 rid) with ⟨s2, r2⟩
        cases r2 with
        | error e => exact Or.inl ⟨e, rfl, rfl⟩
        | ok response2 =>
          dsimp only
          cases hpe2 : parse_error response2 with
          | some err => exact Or.inl ⟨err, rfl, rfl⟩
          | none => exact Or.inr ⟨rfl, rfl⟩

theorem process_item_counts (σ : Type) (ch : Channel σ) (sid rid : String)
    (acc : σ × RunResults × List Event) (item : String × Int) (x : String) :
    ((process_item ch sid rid acc item).2.1.success.map SuccessRec.id).count x
      + ((process_item ch sid rid acc item).2.1.failed.map FailRec.id).count x
      = (acc.2.1.success.map SuccessRec.id).count x
        + (acc.2.1.failed.map FailRec.id).count x
        + ([item.1].count x) := by
  rcases process_item_cases σ ch sid rid acc item with ⟨e, hf, hs⟩ | ⟨hs, hf⟩ <;>
    simp [hf, hs, List.count_append, List.count_cons] <;> omega

theorem process_item_length (σ : Type) (ch : Channel σ) (sid rid : String)
    (acc : σ × RunResults × List Event) (item : String × Int) :
    (process_item ch sid rid acc item).2.1.success.length
      + (process_item ch sid rid acc item).2.1.failed.length
      = acc.2.1.success.length + acc.2.1.failed.length + 1 := by
  rcases process_item_cases σ ch sid rid acc item with ⟨e, hf, hs⟩ | ⟨hs, hf⟩ <;>
    simp [hf, hs] <;> omega

theorem process_items_counts (σ : Type) (ch : Channel σ) (sid rid : String)
    (items : List (String × Int)) (acc : σ × RunResults × List Event) (x : String) :
    ((process_items ch sid rid acc items).2.1.success.map SuccessRec.id).count x
      + ((process_items ch sid rid acc items).2.1.failed.map FailRec.id).count x
      = (acc.2.1.success.map SuccessRec.id).count x
        + (acc.2.1.failed.map FailRec.id).count x
        + (items.map Prod.fst).count x := by
  induction items generalizing acc with
  | nil => simp [process_items]
  | cons it items ih =>
    rw [show process_items ch sid rid acc (it :: items)
        = process_items ch sid rid (process_item ch sid rid acc it) items from rfl]
    rw [ih, process_item_counts]
    simp only [List.map_cons, List.count_cons, List.count_nil]
    omega

theorem process_items_length (σ : Type) (ch : Channel σ) (sid rid : String)
    (items : List (String × Int)) (acc : σ × RunResults × List Event) :
    (process_items ch sid rid acc items).2.1.success.length
      + (process_items ch sid rid acc items).2.1.failed.length
      = acc.2.1.success.length + acc.2.1.failed.length + items.length := by
  induction items generalizing acc with
  | nil => simp [process_items]
  | cons it items ih =>
    rw [show process_items ch sid rid acc (it :: items)
        = process_items ch sid rid (process_item ch sid rid acc it) items from rfl]
    rw [ih, process_item_length]
    simp only [List.length_cons]
    omega

theorem count_map_fst_insertSorted (p : String × Int) (l : List (String × Int)) (x : String) :
    ((insertSorted p l).map Prod.fst).count x = ((p :: l).map Prod.fst).count x := by
  induction l with
  | nil => rfl
  | cons y ys ih =>
    unfold insertSorted
    split
    · rfl
    · simp only [List.map_cons, List.count_cons] at ih ⊢
      omega

theorem length_insertSorted (p : String × Int) (l : List (String × Int)) :
    (insertSorted p l).length = l.length + 1 := by
  induction l with
  | nil => rfl
  | cons y ys ih =>
    unfold insertSorted
    split
    · rfl
    · simp only [List.length_cons, ih]

theorem count_map_fst_sortItems (l : List (String × Int)) (x : String) :
    ((sortItems l).map Prod.fst).count x = (l.map Prod.fst).count x := by
  induction l with
  | nil => rfl
  | cons p l ih =>
    show ((insertSorted p (sortItems l)).map Prod.fst).count x = _
    rw [count_map_fst_insertSorted]
    simp only [List.map_cons, List.count_cons]
    omega

theorem length_sortItems (l : List (String × Int)) : (sortItems l).length = l.length := by
  induction l with
  | nil => rfl
  | cons p l ih =>
    show (insertSorted p (sortItems l)).length = _
    rw [length_insertSorted, ih, List.length_cons]

theorem map_fst_count_materials (ids : List String) :
    (count_materials ids).map Prod.fst = ids.dedup := by
  unfold count_materials
  rw [List.map_map]
  have hc : (Prod.fst ∘ fun mat_id : String => (mat_id, -(ids.count mat_id : Int)))
      = fun mat_id => mat_id := by
    funext k
    rfl
  rw [hc]
  exact List.map_id' _

/-- C10: in every non-dry run whose session is established, the number
of successes plus the number of failures equals the number of distinct
aggregated identifiers, and each distinct identifier appears exactly
once across the two outcome lists (never both, never twice). -/
theorem claim_C10_one_outcome_per_item (σ : Type) (ch : Channel σ) (s0 s1 s2 : σ)
    (lines : List String) (username password reason_id sid : String)
    (hne : load_material_ids lines ≠ [])
    (hdisp : ch.dispatch s0 = Except.ok s1)
    (hsess : ch.createSession s1 username password = (s2, Except.ok sid))
    (hsid : sid ≠ "") :
    (run_updates ch s0 lines username password reason_id false).results.success.length
      + (run_updates ch s0 lines username password reason_id false).results.failed.length
      = (count_materials (load_material_ids lines)).length ∧
    ∀ x, ((run_updates ch s0 lines username password reason_id false).results.success.map
            SuccessRec.id).count x
      + ((run_updates ch s0 lines username password reason_id false).results.failed.map
            FailRec.id).count x
      = if x ∈ load_material_ids lines then 1 else 0 := by
  have hrun : (run_updates ch s0 lines username password reason_id false).results
      = (process_items ch sid reason_id
          (s2, emptyResults, [Event.dispatch, Event.createSession username password])
          (sortItems (count_materials (load_material_ids lines)))).2.1 := by
    unfold run_updates
    simp [hne, hdisp, hsess, hsid]
  constructor
  · rw [hrun, process_items_length]
    simp [emptyResults, length_sortItems]
  · intro x
    rw [hrun, process_items_counts, count_map_fst_sortItems, map_fst_count_materials]
    simp [emptyResults, List.count_dedup]

/-- Witness for C10 on the mock with a single-item batch. -/
theorem claim_C10_one_outcome_per_item_witness :
    (run_updates mockChannel c2MockState ["EXISTING-001"] "test" "test" "TEST" false).results.success.length
      + (run_updates mockChannel c2MockState ["EXISTING-001"] "test" "test" "TEST" false).results.failed.length
      = (count_materials (load_material_ids ["EXISTING-001"])).length :=
  (claim_C10_one_outcome_per_item MockState mockChannel c2MockState c2MockState
    ⟨true, some ("MOCK-SESSION-" ++ mockStamp 0), c2MockState.materials, 1⟩
    ["EXISTING-001"] "test" "test" "TEST" ("MOCK-SESSION-" ++ mockStamp 0)
    (by decide) rfl rfl (by decide)).1

/-! ## Scanner stepping lemmas

To evaluate a scan over a document with symbolic insertions, the scan is
advanced block by block: a decidable blockClear check certifies that no
match of the open pattern can start inside a concrete block (whatever
follows it), and runs of non-'<' characters can never start a tag
pattern. -/

theorem scanFor_cons_of_none {α : Type} {attempt : List Char → Option α} {c : Char}
    {rest : List Char} (h : attempt (c :: rest) = none) :
    scanFor attempt (c :: rest) = scanFor attempt rest := by
  rw [scanFor_cons, h]

theorem scanFor_cons_of_some {α : Type} {attempt : List Char → Option α} {c : Char}
    {rest : List Char} {v : α} (h : attempt (c :: rest) = some v) :
    scanFor attempt (c :: rest) = some v := by
  rw [scanFor_cons, h]

/-- Skip a run of non-'<' characters for an attempt that can only start
at a '<'. -/
theorem scanFor_skip_run {α : Type} {attempt : List Char → Option α}
    (hA : ∀ c rest', c ≠ '<' → attempt (c :: rest') = none)
    (l rest : List Char) (hl : ∀ c ∈ l, c ≠ '<') :
    scanFor attempt (l ++ rest) = scanFor attempt rest := by
  induction l with
  | nil => rfl
  | cons c l ih =>
    rw [List.cons_append, scanFor_cons_of_none (hA c _ (hl c (List.mem_cons_self c l)))]
    exact ih (fun d hd => hl d (List.mem_cons_of_mem c hd))

/-- No occurrence of openT can begin inside block, regardless of what
follows the block. -/
def blockClear (openT block : List Char) : Bool :=
  (List.range block.length).all (fun k =>
    !(openT.isPrefixOf (block.drop k)) && !((block.drop k).isPrefixOf openT))

theorem isPrefixOf_append_of_le {o a rest : List Char} (hlen : o.length ≤ a.length) :
    o.isPrefixOf (a ++ rest) = o.isPrefixOf a := by
  induction o generalizing a with
  | nil => simp [List.isPrefixOf]
  | cons x o ih =>
    cases a with
    | nil => simp at hlen
    | cons b a =>
      simp only [List.cons_append, List.isPrefixOf, List.append_eq]
      rw [ih (by simpa using hlen)]

theorem isPrefixOf_of_spill {o a rest : List Char} (hlen : a.length < o.length)
    (h : o.isPrefixOf (a ++ rest) = true) : a.isPrefixOf o = true := by
  induction a generalizing o with
  | nil => simp [List.isPrefixOf]
  | cons b a ih =>
    cases o with
    | nil => simp at hlen
    | cons x o =>
      simp only [List.cons_append, List.isPrefixOf, Bool.and_eq_true, beq_iff_eq] at h ⊢
      exact ⟨h.1.symm, ih (by simpa using hlen) h.2⟩

theorem blockClear_tail {openT : List Char} {c : Char} {bl : List Char}
    (h : blockClear openT (c :: bl) = true) : blockClear openT bl = true := by
  unfold blockClear at h ⊢
  rw [List.all_eq_true] at h ⊢
  intro k hk
  rw [List.mem_range] at hk
  have := h (k + 1) (by rw [List.mem_range]; simpa using Nat.succ_lt_succ hk)
  simpa using this

/-- Advance a scan past a blockClear-certified concrete block. -/
theorem scanFor_skip_clear {α : Type} {attempt : List Char → Option α} (openT : List Char)
    (hA : ∀ s, openT.isPrefixOf s = false → attempt s = none)
    (block rest : List Char) (hclear : blockClear openT block = true) :
    scanFor attempt (block ++ rest) = scanFor attempt rest := by
  induction block with
  | nil => rfl
  | cons c bl ih =>
    have h0 := (List.all_eq_true.mp hclear) 0 (by simp [List.mem_range])
    simp only [List.drop_zero, Bool.and_eq_true, Bool.not_eq_true'] at h0
    have hpf : openT.isPrefixOf ((c :: bl) ++ rest) = false := by
      rcases Nat.lt_or_ge (c :: bl).length openT.length with hlen | hlen
      · cases hcon : openT.isPrefixOf ((c :: bl) ++ rest) with
        | false => rfl
        | true =>
          have hsp := isPrefixOf_of_spill hlen hcon
          rw [h0.2] at hsp
          exact Bool.noConfusion hsp
      · rw [isPrefixOf_append_of_le hlen]
        exact h0.1
    have hnone : attempt (c :: (bl ++ rest)) = none := hA _ hpf
    rw [List.cons_append, scanFor_cons_of_none hnone]
    exact ih (blockClear_tail hclear)

theorem isPrefixOf_append_self (o t : List Char) : o.isPrefixOf (o ++ t) = true := by
  induction o with
  | nil => simp [List.isPrefixOf]
  | cons x o ih => simp [List.isPrefixOf, ih]

theorem takeWhile_append_stop {p : Char → Bool} {l : List Char} {c : Char} {rest : List Char}
    (hl : ∀ x ∈ l, p x = true) (hc : p c = false) :
    (l ++ c :: rest).takeWhile p = l := by
  induction l with
  | nil => simp [List.takeWhile_cons, hc]
  | cons x l ih =>
    rw [List.cons_append, List.takeWhile_cons, hl x (List.mem_cons_self x l)]
    rw [ih (fun y hy => hl y (List.mem_cons_of_mem x hy))]
    simp

theorem dropWhile_append_all {p : Char → Bool} {l rest : List Char}
    (hl : ∀ x ∈ l, p x = true) :
    (l ++ rest).dropWhile p = rest.dropWhile p := by
  induction l with
  | nil => rfl
  | cons x l ih =>
    rw [List.cons_append, List.dropWhile_cons, hl x (List.mem_cons_self x l)]
    simp only [if_true]
    exact ih (fun y hy => hl y (List.mem_cons_of_mem x hy))

theorem dropWhile_cons_stop {p : Char → Bool} {c : Char} {rest : List Char}
    (hc : p c = false) : (c :: rest).dropWhile p = c :: rest := by
  rw [List.dropWhile_cons, hc]
  simp

/-! ## Numeral round-trip lemmas -/

theorem isDigitChar_digitChar {n : Nat} (h : n < 10) : isDigitChar (digitChar n) = true := by
  interval_cases n <;> decide

theorem digitVal_digitChar {n : Nat} (h : n < 10) : digitVal (digitChar n) = n := by
  interval_cases n <;> decide

theorem natReprCore_all_digits (fuel : Nat) :
    ∀ n, (natReprCore fuel n).all isDigitChar = true := by
  induction fuel with
  | zero => intro n; rfl
  | succ fuel ih =>
    intro n
    unfold natReprCore
    by_cases h : n < 10
    · rw [if_pos h]
      simp [isDigitChar_digitChar h]
    · rw [if_neg h, List.all_append]
      simp [ih (n / 10), isDigitChar_digitChar (Nat.mod_lt n (by decide))]

theorem natReprCore_ne_nil {fuel n : Nat} (h : n < fuel) : natReprCore fuel n ≠ [] := by
  cases fuel with
  | zero => omega
  | succ fuel =>
    unfold natReprCore
    by_cases h10 : n < 10
    · rw [if_pos h10]
      simp
    · rw [if_neg h10]
      simp

theorem foldl_natReprCore (fuel : Nat) : ∀ n, n < fuel →
    (natReprCore fuel n).foldl (fun a c => 10 * a + digitVal c) 0 = n := by
  induction fuel with
  | zero => intro n h; omega
  | succ fuel ih =>
    intro n h
    unfold natReprCore
    by_cases h10 : n < 10
    · rw [if_pos h10]
      simp [digitVal_digitChar h10]
    · rw [if_neg h10, List.foldl_append]
      have hdiv : n / 10 < fuel := by
        have := Nat.div_lt_self (show 0 < n by omega) (show 1 < 10 by decide)
        omega
      rw [ih (n / 10) hdiv]
      simp [digitVal_digitChar (Nat.mod_lt n (by decide))]
      omega

theorem parseNatDigits_natRepr (n : Nat) : parseNatDigits (natRepr n) = some n := by
  unfold parseNatDigits
  have hne : natRepr n ≠ [] := natReprCore_ne_nil (show n < n + 1 by omega)
  have hall : (natRepr n).all isDigitChar = true := natReprCore_all_digits (n + 1) n
  have hempty : (natRepr n).isEmpty = false := by
    cases hcs : natRepr n with
    | nil => exact absurd hcs hne
    | cons c cs => rfl
  rw [hempty, hall]
  simp only [Bool.not_false, Bool.and_true, if_true]
  exact congrArg some (foldl_natReprCore (n + 1) n (by omega))

theorem isDigitChar_ne_dash {c : Char} (h : isDigitChar c = true) : c ≠ '-' := by
  intro he
  subst he
  exact absurd h (by decide)

/-- Rendering an Int with Python's str and reading it back with the
mock's float recovers the Int. -/
theorem parseIntLit_intRepr (q : Int) : parseIntLit (intRepr q).data = some q := by
  unfold intRepr
  by_cases hq : q < 0
  · rw [if_pos hq]
    show parseIntLit ('-' :: natRepr q.natAbs) = some q
    unfold parseIntLit
    rw [if_pos (by rfl)]
    simp [List.tail_cons, parseNatDigits_natRepr]
    rw [abs_of_nonpos (le_of_lt hq)]
    ring
  · rw [if_neg hq]
    show parseIntLit (natRepr q.natAbs) = some q
    have hne : natRepr q.natAbs ≠ [] := natReprCore_ne_nil (by omega)
    obtain ⟨c, cs, hcs⟩ := List.exists_cons_of_ne_nil hne
    have hcd : isDigitChar c = true := by
      have hall := natReprCore_all_digits (q.natAbs + 1) q.natAbs
      rw [show natReprCore (q.natAbs + 1) q.natAbs = natRepr q.natAbs from rfl, hcs,
        List.all_cons] at hall
      simp only [Bool.and_eq_true] at hall
      exact hall.1
    unfold parseIntLit
    rw [hcs]
    rw [if_neg (by
      simp only [List.head?, Option.some.injEq]
      exact fun he => isDigitChar_ne_dash hcd he)]
    rw [← hcs]
    simp [parseNatDigits_natRepr]
    omega

/-! ## C7: non-zero status code fallback -/

theorem attemptTag_none_of_not_prefix {openT closeT s : List Char}
    (h : openT.isPrefixOf s = false) : attemptTag openT closeT s = none := by
  unfold attemptTag
  rw [h]
  simp

theorem attemptSCnz_none_of_not_prefix {s : List Char}
    (h : "<StatusCode>".data.isPrefixOf s = false) : attemptStatusCodeNonZero s = none := by
  unfold attemptStatusCodeNonZero
  rw [h]
  simp

theorem attemptModId_none_of_not_prefix {s : List Char}
    (h : "<MaterialMod>".data.isPrefixOf s = false) : attemptModId s = none := by
  unfold attemptModId
  rw [h]
  simp

/-- The StatusCode fallback attempt succeeds at a well-formed status
field whose code starts with a character other than '0' and contains no
'<'. -/
theorem attemptSCnz_at_match {d : Char} {ds post : List Char}
    (hd0 : d ≠ '0') (hall : ∀ c ∈ d :: ds, c ≠ '<') :
    attemptStatusCodeNonZero
      ("<StatusCode>".data ++ ((d :: ds) ++ ("</StatusCode>".data ++ post)))
      = some (d :: ds) := by
  unfold attemptStatusCodeNonZero
  rw [isPrefixOf_append_self, if_pos rfl, List.drop_left, List.cons_append]
  dsimp only
  rw [if_pos (by
    simp only [bne_iff_ne, ne_eq]
    exact hd0)]
  rw [List.cons_append]
  rw [takeWhile_append_stop (fun x hx => by
        simp only [bne_iff_ne, ne_eq]
        exact hall x (List.mem_cons_of_mem d hx)) (by decide)]
  rw [List.drop_left, ← List.cons_append, isPrefixOf_append_self]
  simp

/-- Counterexample to C7: a response whose status field carries the
non-zero code 01, with no message field of any kind, yields no parsed
error at all (the fallback pattern requires the code's first character
to differ from '0'), instead of reporting the raw status code. -/
theorem claim_C7_counterexample :
    parse_error "<JBXML><StatusCode>01</StatusCode></JBXML>" = none := by decide

/-- C7 (amended): for every response carrying a single status field
whose code is non-zero and does not begin with the character '0' (and no
message fields), parse_error reports "Status code: " followed by the raw
code; and every response containing the literal success field
StatusCode 0 yields no error. -/
theorem claim_C7_status_code_fallback (pre post ds : List Char) (d : Char)
    (response : String)
    (hdata : response.data
      = pre ++ ("<StatusCode>".data ++ ((d :: ds) ++ ("</StatusCode>".data ++ post))))
    (hpre : blockClear "<StatusCode>".data pre = true)
    (hd0 : d ≠ '0')
    (hall : ∀ c ∈ d :: ds, c ≠ '<')
    (h0 : containsSub "<StatusCode>0</StatusCode>" response.data = false)
    (hSM : searchTag "<StatusMessage>" "</StatusMessage>" response.data = none)
    (hEM : searchTag "<ErrorMessage>" "</ErrorMessage>" response.data = none) :
    parse_error response = some ("Status code: " ++ String.mk (d :: ds)) ∧
    (∀ r : String, containsSub "<StatusCode>0</StatusCode>" r.data = true →
        parse_error r = none) := by
  constructor
  · have hsc : searchStatusCodeNonZero response.data = some (d :: ds) := by
      rw [hdata]
      unfold searchStatusCodeNonZero
      rw [scanFor_skip_clear "<StatusCode>".data
        (fun s hs => attemptSCnz_none_of_not_prefix hs) pre _ hpre]
      rw [show "<StatusCode>".data ++ ((d :: ds) ++ ("</StatusCode>".data ++ post))
          = '<' :: ("StatusCode>".data ++ ((d :: ds) ++ ("</StatusCode>".data ++ post)))
        from rfl]
      exact scanFor_cons_of_some (attemptSCnz_at_match hd0 hall)
    simp only [parse_error, h0, hSM, hEM, hsc, Bool.false_eq_true, if_false]
  · intro r hr
    simp only [parse_error, hr, if_true]

/-- Witness for C7's amended statement at a concrete response. -/
theorem claim_C7_status_code_fallback_witness :
    parse_error "<JBXML><StatusCode>5</StatusCode></JBXML>"
      = some ("Status code: " ++ String.mk ['5']) :=
  (claim_C7_status_code_fallback "<JBXML>".data "</JBXML>".data [] '5'
    "<JBXML><StatusCode>5</StatusCode></JBXML>"
    (by decide) (by decide) (by decide) (by decide) (by decide) (by decide) (by decide)).1

/-! ## C8: render/parse round-trip of the manifest's update documents -/

theorem isDigitChar_ne_lt {c : Char} (h : isDigitChar c = true) : c ≠ '<' := by
  intro he
  subst he
  exact absurd h (by decide)

theorem intRepr_ne_nil (q : Int) : (intRepr q).data ≠ [] := by
  unfold intRepr
  by_cases hq : q < 0
  · rw [if_pos hq]
    show '-' :: natRepr q.natAbs ≠ []
    simp
  · rw [if_neg hq]
    show natRepr q.natAbs ≠ []
    exact natReprCore_ne_nil (by omega)

theorem intRepr_no_lt (q : Int) : ∀ c ∈ (intRepr q).data, c ≠ '<' := by
  have hdig : ∀ c ∈ natRepr q.natAbs, c ≠ '<' := by
    intro c hc
    have hall := natReprCore_all_digits (q.natAbs + 1) q.natAbs
    rw [List.all_eq_true] at hall
    exact isDigitChar_ne_lt (hall c hc)
  unfold intRepr
  by_cases hq : q < 0
  · rw [if_pos hq]
    intro c hc
    rcases List.mem_cons.mp hc with hc | hc
    · subst hc
      decide
    · exact hdig c hc
  · rw [if_neg hq]
    exact hdig

/-- A tag attempt succeeds at a well-formed field whose capture is
nonempty and free of '<'. -/
theorem attemptTag_at_match {openT cl' cap rest : List Char}
    (hcap_ne : cap ≠ []) (hcap : ∀ c ∈ cap, c ≠ '<') :
    attemptTag openT ('<' :: cl') (openT ++ (cap ++ (('<' :: cl') ++ rest))) = some cap := by
  unfold attemptTag
  rw [isPrefixOf_append_self, if_pos rfl, List.drop_left, List.cons_append]
  dsimp only
  rw [takeWhile_append_stop (fun x hx => by
        simp only [bne_iff_ne, ne_eq]
        exact hcap x hx) (by decide)]
  rw [List.drop_left, ← List.cons_append, isPrefixOf_append_self]
  cases cap with
  | nil => exact absurd rfl hcap_ne
  | cons m ms => simp

/-- The mock's MaterialMod id attempt succeeds at the well-formed
modification body. -/
theorem attemptModId_at_match {ws mid rest : List Char}
    (hws : ∀ x ∈ ws, isPySpace x = true)
    (hmid_ne : mid ≠ []) (hmid : ∀ c ∈ mid, c ≠ '<') :
    attemptModId ("<MaterialMod>".data ++
        (ws ++ ("<ID>".data ++ (mid ++ ("</ID>".data ++ rest))))) = some mid := by
  unfold attemptModId
  rw [isPrefixOf_append_self, if_pos rfl, List.drop_left]
  dsimp only
  rw [dropWhile_append_all hws]
  rw [show "<ID>".data ++ (mid ++ ("</ID>".data ++ rest))
      = '<' :: ("ID>".data ++ (mid ++ ("</ID>".data ++ rest))) from rfl]
  rw [dropWhile_cons_stop (by decide)]
  rw [show '<' :: ("ID>".data ++ (mid ++ ("</ID>".data ++ rest)))
      = "<ID>".data ++ (mid ++ ("</ID>".data ++ rest)) from rfl]
  rw [isPrefixOf_append_self, if_pos rfl, List.drop_left]
  dsimp only
  rw [show "</ID>".data ++ rest = '<' :: ("/ID>".data ++ rest) from rfl]
  rw [takeWhile_append_stop (fun x hx => by
        simp only [bne_iff_ne, ne_eq]
        exact hmid x hx) (by decide)]
  rw [List.drop_left, ← List.cons_append, isPrefixOf_append_self]
  cases mid with
  | nil => exact absurd rfl hmid_ne
  | cons m ms => simp

/-- The generator's update document, chunked at the MaterialMod body for
the id scan. -/
def c8P0 : List Char :=
  ("<?xml version=\"1.0\" encoding=\"UTF-8\"?>\n<JBXML>\n    <JBXMLRequest Session=\""
    ++ sessionPlaceholder ++ "\">\n        <MaterialModRq>\n            ").data

def c8WS : List Char := "\n                ".data

def c8Tail1 : List Char :=
  ("\n                <LastUpdated>" ++ lastUpdatedPlaceholder
    ++ "</LastUpdated>\n            </MaterialMod>\n            <AdjustOnHandQty>\n                <ReasonRef ID=\"").data

def c8Tail2 : List Char := "\"/>\n                ".data

def c8Tail4 : List Char :=
  "\n            </AdjustOnHandQty>\n        </MaterialModRq>\n    </JBXMLRequest>\n</JBXML>".data

/-- The same document, chunked at the Quantity field for the quantity
scan. -/
def c8D1 : List Char :=
  ("<?xml version=\"1.0\" encoding=\"UTF-8\"?>\n<JBXML>\n    <JBXMLRequest Session=\""
    ++ sessionPlaceholder
    ++ "\">\n        <MaterialModRq>\n            <MaterialMod>\n                <ID>").data

def c8D2 : List Char :=
  ("</ID>\n                <LastUpdated>" ++ lastUpdatedPlaceholder
    ++ "</LastUpdated>\n            </MaterialMod>\n            <AdjustOnHandQty>\n                <ReasonRef ID=\"").data

set_option maxRecDepth 1000000 in
set_option maxHeartbeats 1000000 in
/-- Chunked view of the generator's rendered update document, exposing
the MaterialMod body for the id scan. -/
theorem c8_decomp_mod (material_id reason : String) (q : Int) :
    (create_material_mod_xml sessionPlaceholder material_id
        lastUpdatedPlaceholder q reason).data
      = c8P0 ++ ("<MaterialMod>".data ++ (c8WS ++ ("<ID>".data ++ (material_id.data ++
          ("</ID>".data ++ (c8Tail1 ++ (reason.data ++
            (c8Tail2 ++ ("<Quantity>".data ++ ((intRepr q).data ++
              ("</Quantity>".data ++ c8Tail4))))))))))) := by
  simp only [create_material_mod_xml, c8P0, c8WS, c8Tail1, c8Tail2, c8Tail4,
    sessionPlaceholder, lastUpdatedPlaceholder, String.data_append, List.append_assoc]
  rfl

set_option maxRecDepth 1000000 in
set_option maxHeartbeats 1000000 in
/-- Chunked view of the same document, exposing the Quantity field for
the quantity scan. -/
theorem c8_decomp_quantity (material_id reason : String) (q : Int) :
    (create_material_mod_xml sessionPlaceholder material_id
        lastUpdatedPlaceholder q reason).data
      = c8D1 ++ (material_id.data ++ (c8D2 ++ (reason.data ++ (c8Tail2 ++
          ("<Quantity>".data ++ ((intRepr q).data ++ ("</Quantity>".data ++ c8Tail4)))))))
    := by
  simp only [create_material_mod_xml, c8D1, c8D2, c8Tail2, c8Tail4,
    sessionPlaceholder, lastUpdatedPlaceholder, String.data_append, List.append_assoc]
  rfl

set_option maxRecDepth 1000000 in
/-- Counterexample to C8: an identifier containing '<' (a legal input
line) renders into an update document from which the mock's id pattern
extracts nothing at all, so re-parsing cannot reproduce the identifier. -/
theorem claim_C8_counterexample :
    count_materials ["A<B"] = [("A<B", -1)] ∧
    searchModId (create_material_mod_xml sessionPlaceholder "A<B"
        lastUpdatedPlaceholder (-1) "").data = none := by decide

set_option maxRecDepth 1000000 in
/-- C8 (amended): for every item whose identifier is nonempty and free
of '<', and every cause code free of '<', re-parsing the generator's
rendered update document with the store's own extraction patterns
recovers exactly the identifier and the rendered delta, and the delta
string parses back to the original signed quantity. -/
theorem claim_C8_roundtrip (material_id reason : String) (q : Int)
    (hne : material_id.data ≠ [])
    (hm : ∀ c ∈ material_id.data, c ≠ '<')
    (hr : ∀ c ∈ reason.data, c ≠ '<') :
    searchModId (create_material_mod_xml sessionPlaceholder material_id
        lastUpdatedPlaceholder q reason).data = some material_id.data ∧
    searchTag "<Quantity>" "</Quantity>" (create_material_mod_xml sessionPlaceholder
        material_id lastUpdatedPlaceholder q reason).data = some (intRepr q).data ∧
    parseIntLit (intRepr q).data = some q := by
  refine ⟨?_, ?_, parseIntLit_intRepr q⟩
  · rw [c8_decomp_mod material_id reason q]
    unfold searchModId
    rw [scanFor_skip_clear "<MaterialMod>".data
      (fun s hs => attemptModId_none_of_not_prefix hs) c8P0 _ (by decide)]
    exact scanFor_cons_of_some (attemptModId_at_match (by decide) hne hm)
  · rw [c8_decomp_quantity material_id reason q]
    unfold searchTag
    rw [scanFor_skip_clear "<Quantity>".data
      (fun s hs => attemptTag_none_of_not_prefix hs) c8D1 _ (by decide)]
    rw [scanFor_skip_run (fun c rest' hc => attemptTag_none_of_not_prefix (by
        show (('<' :: "Quantity>".data).isPrefixOf (c :: rest')) = false
        simp only [List.isPrefixOf]
        rw [beq_eq_false_iff_ne.mpr (Ne.symm hc)]
        simp))
      material_id.data _ hm]
    rw [scanFor_skip_clear "<Quantity>".data
      (fun s hs => attemptTag_none_of_not_prefix hs) c8D2 _ (by decide)]
    rw [scanFor_skip_run (fun c rest' hc => attemptTag_none_of_not_prefix (by
        show (('<' :: "Quantity>".data).isPrefixOf (c :: rest')) = false
        simp only [List.isPrefixOf]
        rw [beq_eq_false_iff_ne.mpr (Ne.symm hc)]
        simp))
      reason.data _ hr]
    rw [scanFor_skip_run (fun c rest' hc => attemptTag_none_of_not_prefix (by
        show (('<' :: "Quantity>".data).isPrefixOf (c :: rest')) = false
        simp only [List.isPrefixOf]
        rw [beq_eq_false_iff_ne.mpr (Ne.symm hc)]
        simp))
      c8Tail2 _ (by decide)]
    exact scanFor_cons_of_some (attemptTag_at_match (intRepr_ne_nil q) (intRepr_no_lt q))

set_option maxRecDepth 1000000 in
/-- Witness for C8 at a concrete item. -/
theorem claim_C8_roundtrip_witness :
    searchModId (create_material_mod_xml sessionPlaceholder "MAT-001"
        lastUpdatedPlaceholder (-3) "ADJUST").data = some "MAT-001".data :=
  (claim_C8_roundtrip "MAT-001" "ADJUST" (-3) (by decide) (by decide) (by decide)).1

end JB

